import Mathlib

/-!
Shallow embedding of the code-execution engine of the repository
(`backend/code_executor.py`, data model from `backend/models.py`).

The subprocess layer (temporary files, `subprocess.run`) is abstracted by a
`ProcOutcome` oracle describing what the spawned child process did on one
invocation: it completed with an exit code, stdout, stderr and an elapsed
wall-clock time in milliseconds; or the wall-clock timeout expired
(`subprocess.TimeoutExpired`); or an exception unrelated to the user code was
raised during setup/spawn.  Runtimes are modelled as exact rationals.
Python's `str.strip()` is modelled by `strip` below (removal of leading and
trailing ASCII whitespace; the exotic-whitespace difference between the two
is irrelevant to the properties below).
-/

namespace CodeForge

/-- `SubmissionStatusEnum` from `backend/models.py`. -/
inductive SubmissionStatusEnum where
  | ACCEPTED
  | WRONG_ANSWER
  | TIME_LIMIT_EXCEEDED
  | MEMORY_LIMIT_EXCEEDED
  | RUNTIME_ERROR
  | COMPILE_ERROR
deriving DecidableEq, Repr

/-- `CodeExecutionResult` from `backend/models.py` (pydantic model with
defaults `runtime = None`, `memory = None`, `passed_tests = 0`,
`total_tests = 0`, `error_message = None`). -/
structure CodeExecutionResult where
  status : SubmissionStatusEnum
  output : String
  runtime : Option ℚ := none
  memory : Option ℚ := none
  passed_tests : Nat := 0
  total_tests : Nat := 0
  error_message : Option String := none
deriving DecidableEq, Repr

/-- A test case as consumed by `CodeExecutor.test_solution`: the dictionary
keys `input` and `expected_output` (`TestCase` in `backend/models.py`). -/
structure TestCase where
  input : String
  expected_output : String
deriving DecidableEq, Repr

/-- Behaviour of the underlying subprocess layer for one invocation of
`subprocess.run` (including the temporary-file setup around it):
the child completed with an exit code, captured stdout/stderr and an elapsed
time in milliseconds; or the timeout expired; or setup/spawn raised an
exception (e.g. a filesystem error) whose message is recorded. -/
inductive ProcOutcome where
  | completed (returncode : Int) (stdout stderr : String) (elapsed_ms : ℚ)
  | timedOut
  | setupError (msg : String)
deriving DecidableEq, Repr

/-- `CodeExecutor.__init__`: `self.timeout = 5` seconds,
`self.memory_limit = 128` MB. -/
structure CodeExecutor where
  timeout : Nat := 5
  memory_limit : Nat := 128
deriving DecidableEq, Repr

/-- The executor instance with its default configuration. -/
def code_executor : CodeExecutor := {}

/-- Python's `str.strip()`: removes leading and trailing whitespace.
Defined by structural recursion over the character list so that the kernel
can evaluate it (extensionally it is `String.trim` on ASCII whitespace). -/
def strip (s : String) : String :=
  String.mk ((s.data.dropWhile Char.isWhitespace).reverse.dropWhile
    Char.isWhitespace).reverse

/-- `CodeExecutor._execute_python`.  Exceptions raised by the setup (and not
by `subprocess.TimeoutExpired`, which is handled locally) escape to the
caller, modelled by `Except.error`. -/
def execute_python (_code _test_input : String) (o : ProcOutcome) :
    Except String CodeExecutionResult :=
  match o with
  | .setupError msg => .error msg
  | .timedOut =>
      .ok { status := .TIME_LIMIT_EXCEEDED, output := "",
            error_message := some "Time limit exceeded" }
  | .completed rc out err rt =>
      if rc = 0 then
        .ok { status := .ACCEPTED, output := strip out,
              runtime := some rt, memory := some 10 }
      else
        .ok { status := .RUNTIME_ERROR, output := strip out,
              error_message := some (strip err) }

/-- `CodeExecutor._execute_javascript`: identical control flow to
`_execute_python` except for the mocked memory figure (15.0). -/
def execute_javascript (_code _test_input : String) (o : ProcOutcome) :
    Except String CodeExecutionResult :=
  match o with
  | .setupError msg => .error msg
  | .timedOut =>
      .ok { status := .TIME_LIMIT_EXCEEDED, output := "",
            error_message := some "Time limit exceeded" }
  | .completed rc out err rt =>
      if rc = 0 then
        .ok { status := .ACCEPTED, output := strip out,
              runtime := some rt, memory := some 15 }
      else
        .ok { status := .RUNTIME_ERROR, output := strip out,
              error_message := some (strip err) }

/-- `CodeExecutor._execute_java`: mocked, ignores the code and the input. -/
def execute_java (_code _test_input : String) : CodeExecutionResult :=
  { status := .ACCEPTED, output := "Java execution mocked",
    runtime := some 50, memory := some 25 }

/-- `CodeExecutor._execute_cpp`: mocked, ignores the code and the input. -/
def execute_cpp (_code _test_input : String) : CodeExecutionResult :=
  { status := .ACCEPTED, output := "C++ execution mocked",
    runtime := some 30, memory := some 20 }

/-- `CodeExecutor.execute_code`: dispatch on the language identifier
(`LanguageEnum` is a `str` enum, so the comparison is string equality),
with the surrounding `try/except Exception` that converts any escaped
exception into a `RUNTIME_ERROR` result carrying the exception text. -/
def execute_code (language code test_input : String) (o : ProcOutcome) :
    CodeExecutionResult :=
  let attempt : Except String CodeExecutionResult :=
    if language = "python" then execute_python code test_input o
    else if language = "javascript" then execute_javascript code test_input o
    else if language = "java" then .ok (execute_java code test_input)
    else if language = "cpp" then .ok (execute_cpp code test_input)
    else .ok { status := .RUNTIME_ERROR, output := "Unsupported language",
               error_message := some "Language not supported" }
  match attempt with
  | .ok res => res
  | .error msg =>
      { status := .RUNTIME_ERROR, output := "", error_message := some msg }

/-- The per-test-case output comparison performed inline in
`CodeExecutor.test_solution` (lines 161-166): both sides are stripped of
leading/trailing whitespace and compared for exact equality. -/
def compare_outputs (expected actual : String) : Bool :=
  strip expected == strip actual

/-- Renders a rational with two decimal places, approximating Python's
`f"{x:.2f}"` (the rounding of ties differs from CPython's float formatting;
no property below depends on this text). -/
def format2f (q : ℚ) : String :=
  let cents : Int := round (q * 100)
  let n := cents.natAbs
  (if cents < 0 then "-" else "") ++ toString (n / 100) ++ "." ++
    (if n % 100 < 10 then "0" else "") ++ toString (n % 100)

/-- The loop body of `CodeExecutor.test_solution`: iterate the test cases in
order, each paired with the subprocess behaviour its execution produces;
`passed_tests` and `total_runtime` are the loop accumulators and
`total_tests` was fixed to `len(test_cases)` before the loop. -/
def test_loop (language code : String) (total_tests : Nat)
    (cases : List (TestCase × ProcOutcome))
    (passed_tests : Nat) (total_runtime : ℚ) : CodeExecutionResult :=
  match cases with
  | [] =>
      let avg_runtime : ℚ :=
        if 0 < total_tests then total_runtime / total_tests else 0
      { status := .ACCEPTED,
        output := "All test cases passed!" ++ "\n" ++ "Average Runtime: " ++
          format2f avg_runtime ++ "ms",
        runtime := some avg_runtime,
        passed_tests := passed_tests, total_tests := total_tests }
  | (tc, o) :: rest =>
      let result := execute_code language code tc.input o
      if result.status = .ACCEPTED then
        let expected := strip tc.expected_output
        let actual := strip result.output
        if expected = actual then
          test_loop language code total_tests rest (passed_tests + 1)
            (total_runtime + result.runtime.getD 0)
        else
          { status := .WRONG_ANSWER,
            output := "Expected: " ++ expected ++ "\n" ++ "Actual: " ++ actual,
            runtime := result.runtime,
            passed_tests := passed_tests, total_tests := total_tests }
      else result

/-- `CodeExecutor.test_solution`: each test case is paired with the
`ProcOutcome` that executing the submission on that case's input produces. -/
def test_solution (language code : String)
    (cases : List (TestCase × ProcOutcome)) : CodeExecutionResult :=
  test_loop language code cases.length cases 0 0

/-- A test case (paired with the behaviour its execution produces) passes:
its execution result has status `ACCEPTED` and its output matches the
expected output after stripping — exactly the condition under which the loop
in `test_solution` continues to the next case. -/
def case_passes (language code : String) (p : TestCase × ProcOutcome) : Bool :=
  let r := execute_code language code p.1.input p.2
  r.status == .ACCEPTED && strip p.1.expected_output == strip r.output

/-- The elapsed wall-clock time (ms) recorded by the subprocess layer. -/
def elapsed_ms : ProcOutcome → ℚ
  | .completed _ _ _ rt => rt
  | _ => 0

/-- Modelled from the spec's wording of the ordering property: the number of
test cases strictly before the first case producing a non-Match/non-success
outcome. -/
def first_fail_count (language code : String)
    (cases : List (TestCase × ProcOutcome)) : Nat :=
  (cases.takeWhile (case_passes language code)).length

/-- `execute_code` returns the per-call result untouched by the aggregation
loop: its `passed_tests` and `total_tests` fields are the pydantic defaults
`0`, and its status is never `WRONG_ANSWER` (that status is produced only by
`test_solution`). -/
theorem execute_code_raw (language code test_input : String) (o : ProcOutcome) :
    (execute_code language code test_input o).passed_tests = 0 ∧
    (execute_code language code test_input o).total_tests = 0 ∧
    (execute_code language code test_input o).status ≠ .WRONG_ANSWER := by
  unfold execute_code execute_python execute_javascript execute_java execute_cpp
  cases o with
  | completed rc out err rt =>
      rcases eq_or_ne rc 0 with hrc | hrc <;>
        split_ifs <;> simp_all
  | timedOut => split_ifs <;> simp
  | setupError msg => split_ifs <;> simp

/-- Stepping the loop over a passing case: `passed_tests` is incremented and
the case's reported runtime is accumulated. -/
theorem test_loop_cons_pass (language code : String) (total : Nat)
    (tc : TestCase) (o : ProcOutcome) (rest : List (TestCase × ProcOutcome))
    (passed : Nat) (tr : ℚ) (h : case_passes language code (tc, o) = true) :
    test_loop language code total ((tc, o) :: rest) passed tr =
      test_loop language code total rest (passed + 1)
        (tr + (execute_code language code tc.input o).runtime.getD 0) := by
  unfold case_passes at h
  simp only [Bool.and_eq_true, beq_iff_eq] at h
  conv_lhs => rw [test_loop.eq_def]
  simp [h.1, h.2]

/-- Running the loop over a prefix of passing cases only moves the
accumulators: the result is the loop on the remaining cases with
`passed_tests` advanced by the prefix length and the prefix's reported
runtimes added up. -/
theorem test_loop_passing_run (language code : String) (total : Nat)
    (pre tail : List (TestCase × ProcOutcome))
    (h : ∀ p ∈ pre, case_passes language code p = true)
    (passed : Nat) (tr : ℚ) :
    test_loop language code total (pre ++ tail) passed tr =
      test_loop language code total tail (passed + pre.length)
        (tr + ((pre.map
          (fun p => (execute_code language code p.1.input p.2).runtime.getD 0)).sum)) := by
  induction pre generalizing passed tr with
  | nil => simp
  | cons hd tl ih =>
      obtain ⟨tc, o⟩ := hd
      rw [List.cons_append,
        test_loop_cons_pass language code total tc o (tl ++ tail) passed tr
          (h _ (List.mem_cons_self _ _)),
        ih (fun p hp => h p (List.mem_cons_of_mem _ hp))]
      have hlen : passed + 1 + tl.length = passed + (tl.length + 1) := by omega
      have htr :
          tr + (execute_code language code tc.input o).runtime.getD 0 +
              ((tl.map (fun p =>
                (execute_code language code p.1.input p.2).runtime.getD 0)).sum) =
            tr + ((execute_code language code tc.input o).runtime.getD 0 +
              ((tl.map (fun p =>
                (execute_code language code p.1.input p.2).runtime.getD 0)).sum)) := by
        ring
      simp [hlen, htr]

/-- Stepping the loop over a case whose execution is not accepted returns
that case's raw `execute_code` result unchanged (the `else: return result`
branch of `test_solution`). -/
theorem test_loop_cons_raw (language code : String) (total : Nat)
    (tc : TestCase) (o : ProcOutcome) (rest : List (TestCase × ProcOutcome))
    (passed : Nat) (tr : ℚ)
    (h : (execute_code language code tc.input o).status ≠ .ACCEPTED) :
    test_loop language code total ((tc, o) :: rest) passed tr =
      execute_code language code tc.input o := by
  conv_lhs => rw [test_loop.eq_def]
  simp [h]

/-- Stepping the loop over a case whose execution is accepted but whose
stripped output differs from the stripped expected output returns the
`WRONG_ANSWER` summary with the accumulated `passed_tests`. -/
theorem test_loop_cons_mismatch (language code : String) (total : Nat)
    (tc : TestCase) (o : ProcOutcome) (rest : List (TestCase × ProcOutcome))
    (passed : Nat) (tr : ℚ)
    (hs : (execute_code language code tc.input o).status = .ACCEPTED)
    (hm : strip tc.expected_output ≠
      strip (execute_code language code tc.input o).output) :
    test_loop language code total ((tc, o) :: rest) passed tr =
      { status := .WRONG_ANSWER,
        output := "Expected: " ++ strip tc.expected_output ++ "\n" ++
          "Actual: " ++ strip (execute_code language code tc.input o).output,
        runtime := (execute_code language code tc.input o).runtime,
        passed_tests := passed, total_tests := total } := by
  conv_lhs => rw [test_loop.eq_def]
  simp [hs, hm]

/-- The loop on an exhausted case list returns the `ACCEPTED` summary with
the guarded average runtime. -/
theorem test_loop_nil (language code : String) (total passed : Nat) (tr : ℚ) :
    test_loop language code total [] passed tr =
      { status := .ACCEPTED,
        output := "All test cases passed!" ++ "\n" ++ "Average Runtime: " ++
          format2f (if 0 < total then tr / total else 0) ++ "ms",
        runtime := some (if 0 < total then tr / total else 0),
        passed_tests := passed, total_tests := total } := by
  simp [test_loop]

/-- If the loop ends in `WRONG_ANSWER`, the reported `passed_tests` is the
initial accumulator plus the number of leading passing cases. -/
theorem test_loop_wa_passed (language code : String) (total : Nat)
    (cases : List (TestCase × ProcOutcome)) :
    ∀ passed tr,
      (test_loop language code total cases passed tr).status = .WRONG_ANSWER →
      (test_loop language code total cases passed tr).passed_tests =
        passed + (cases.takeWhile (case_passes language code)).length := by
  induction cases with
  | nil =>
      intro passed tr h
      rw [test_loop_nil] at h
      exact absurd h (by simp)
  | cons hd tl ih =>
      obtain ⟨tc, o⟩ := hd
      intro passed tr h
      by_cases hs : (execute_code language code tc.input o).status = .ACCEPTED
      · by_cases hm : strip tc.expected_output =
            strip (execute_code language code tc.input o).output
        · have hpass : case_passes language code (tc, o) = true := by
            unfold case_passes
            simp [hs, hm]
          rw [test_loop_cons_pass language code total tc o tl passed tr hpass]
            at h ⊢
          rw [ih _ _ h, List.takeWhile_cons, hpass]
          simp
          omega
        · rw [test_loop_cons_mismatch language code total tc o tl passed tr hs hm]
          have hpass : case_passes language code (tc, o) = false := by
            unfold case_passes
            simp [hm]
          rw [List.takeWhile_cons, hpass]
          simp
      · rw [test_loop_cons_raw language code total tc o tl passed tr hs] at h
        exact absurd h (execute_code_raw language code tc.input o).2.2

/-- Loop invariant: if the fixed `total_tests` dominates the accumulator plus
the number of remaining cases, the final report satisfies
`passed_tests ≤ total_tests`. -/
theorem test_loop_passed_le (language code : String) (total : Nat)
    (cases : List (TestCase × ProcOutcome)) :
    ∀ passed tr, passed + cases.length ≤ total →
      (test_loop language code total cases passed tr).passed_tests ≤
        (test_loop language code total cases passed tr).total_tests := by
  induction cases with
  | nil =>
      intro passed tr h
      rw [test_loop_nil]
      simpa using by omega
  | cons hd tl ih =>
      obtain ⟨tc, o⟩ := hd
      intro passed tr h
      simp only [List.length_cons] at h
      by_cases hs : (execute_code language code tc.input o).status = .ACCEPTED
      · by_cases hm : strip tc.expected_output =
            strip (execute_code language code tc.input o).output
        · have hpass : case_passes language code (tc, o) = true := by
            unfold case_passes
            simp [hs, hm]
          rw [test_loop_cons_pass language code total tc o tl passed tr hpass]
          exact ih _ _ (by omega)
        · rw [test_loop_cons_mismatch language code total tc o tl passed tr hs hm]
          simpa using by omega
      · rw [test_loop_cons_raw language code total tc o tl passed tr hs]
        have hraw := execute_code_raw language code tc.input o
        omega

/-- If the loop's verdict is `ACCEPTED` or `WRONG_ANSWER`, the reported
`total_tests` is the fixed `total` (the raw early-return results carry other
statuses). -/
theorem test_loop_total_fixed (language code : String) (total : Nat)
    (cases : List (TestCase × ProcOutcome)) :
    ∀ passed tr,
      ((test_loop language code total cases passed tr).status = .ACCEPTED ∨
       (test_loop language code total cases passed tr).status = .WRONG_ANSWER) →
      (test_loop language code total cases passed tr).total_tests = total := by
  induction cases with
  | nil =>
      intro passed tr _
      rw [test_loop_nil]
  | cons hd tl ih =>
      obtain ⟨tc, o⟩ := hd
      intro passed tr h
      by_cases hs : (execute_code language code tc.input o).status = .ACCEPTED
      · by_cases hm : strip tc.expected_output =
            strip (execute_code language code tc.input o).output
        · have hpass : case_passes language code (tc, o) = true := by
            unfold case_passes
            simp [hs, hm]
          rw [test_loop_cons_pass language code total tc o tl passed tr hpass]
            at h ⊢
          exact ih _ _ h
        · rw [test_loop_cons_mismatch language code total tc o tl passed tr hs hm]
      · rw [test_loop_cons_raw language code total tc o tl passed tr hs] at h ⊢
        rcases h with h | h
        · exact absurd h hs
        · exact absurd h (execute_code_raw language code tc.input o).2.2

/-- When a case passes under one of the really-executed languages (`python`
or `javascript`), its execution result's reported runtime is exactly the
elapsed wall-clock time of the run (unlike the mocked languages, whose
reported runtime is a fixed constant). -/
theorem runtime_of_pass_real (language code : String) (p : TestCase × ProcOutcome)
    (hl : language = "python" ∨ language = "javascript")
    (h : case_passes language code p = true) :
    (execute_code language code p.1.input p.2).runtime.getD 0 = elapsed_ms p.2 := by
  obtain ⟨tc, o⟩ := p
  unfold case_passes at h
  simp only [Bool.and_eq_true, beq_iff_eq] at h
  rcases hl with hl | hl <;> subst hl <;>
  cases o with
  | completed rc out err rt =>
      rcases eq_or_ne rc 0 with hrc | hrc
      · simp [execute_code, execute_python, execute_javascript, hrc, elapsed_ms]
      · have hstat := h.1
        simp [execute_code, execute_python, execute_javascript, hrc] at hstat
  | timedOut =>
      have hstat := h.1
      simp [execute_code, execute_python, execute_javascript] at hstat
  | setupError msg =>
      have hstat := h.1
      simp [execute_code, execute_python, execute_javascript] at hstat

/-- C1 (counterexample): the claim fails as stated.  On a submission whose
first case passes and whose second case exits non-zero, the verdict is not
`Accepted`, yet the returned `passed_tests` is `0` — not `1`, the number of
cases strictly before the first failing case — because the stop-at-failure
branch returns the raw per-case result whose `passed_tests` field is the
default `0`. -/
theorem c1_counterexample :
    (test_solution "python" "usercode"
        [(⟨"", "ok"⟩, .completed 0 "ok" "" 1),
         (⟨"", "x"⟩, .completed 1 "" "boom" 1)]).status ≠
      SubmissionStatusEnum.ACCEPTED ∧
    (test_solution "python" "usercode"
        [(⟨"", "ok"⟩, .completed 0 "ok" "" 1),
         (⟨"", "x"⟩, .completed 1 "" "boom" 1)]).passed_tests = 0 ∧
    first_fail_count "python" "usercode"
        [(⟨"", "ok"⟩, .completed 0 "ok" "" 1),
         (⟨"", "x"⟩, .completed 1 "" "boom" 1)] = 1 := by
  refine ⟨?_, ?_, ?_⟩ <;> decide

/-- C1 (amended): when the verdict is `WRONG_ANSWER`, the returned
`passed_tests` equals the number of cases strictly before the first failing
case (evaluation is strictly in order with stop-at-first-failure); when the
run stops because a case's execution itself fails, the raw per-case result
is returned instead and its `passed_tests` is `0`. -/
theorem c1_wa_passed_count (language code : String)
    (cases : List (TestCase × ProcOutcome))
    (h : (test_solution language code cases).status =
      SubmissionStatusEnum.WRONG_ANSWER) :
    (test_solution language code cases).passed_tests =
      first_fail_count language code cases := by
  unfold test_solution at h ⊢
  unfold first_fail_count
  rw [test_loop_wa_passed language code cases.length cases 0 0 h]
  omega

/-- C1 witness: a one-case submission with mismatching output gets verdict
`WRONG_ANSWER`, and the amended count property holds for it. -/
theorem c1_witness :
    (test_solution "python" "usercode"
        [(⟨"", "a"⟩, .completed 0 "b" "" 1)]).passed_tests =
      first_fail_count "python" "usercode"
        [(⟨"", "a"⟩, .completed 0 "b" "" 1)] :=
  c1_wa_passed_count "python" "usercode"
    [(⟨"", "a"⟩, .completed 0 "b" "" 1)] (by decide)

/-- C2 (counterexample): the claim fails as stated.  On a one-case
submission whose execution exits non-zero, `test_solution` returns the raw
per-case result, whose `total_tests` is the default `0`, not the number of
test cases provided (`1`). -/
theorem c2_counterexample :
    (test_solution "python" "usercode"
        [(⟨"", "x"⟩, .completed 1 "" "err" 1)]).total_tests ≠
      [((⟨"", "x"⟩ : TestCase), ProcOutcome.completed 1 "" "err" 1)].length ∧
    (test_solution "python" "usercode"
        [(⟨"", "x"⟩, .completed 1 "" "err" 1)]).total_tests = 0 ∧
    [((⟨"", "x"⟩ : TestCase), ProcOutcome.completed 1 "" "err" 1)].length = 1 := by
  refine ⟨?_, ?_, ?_⟩ <;> decide

/-- C2 (amended): `passed_tests ≤ total_tests` holds for every submission;
`total_tests` equals the number of test cases provided whenever the verdict
is `ACCEPTED` or `WRONG_ANSWER` (when a case's execution itself fails, the
raw per-case result is returned and carries the default `total_tests = 0`). -/
theorem c2_counts (language code : String)
    (cases : List (TestCase × ProcOutcome)) :
    (test_solution language code cases).passed_tests ≤
      (test_solution language code cases).total_tests ∧
    (((test_solution language code cases).status =
        SubmissionStatusEnum.ACCEPTED ∨
      (test_solution language code cases).status =
        SubmissionStatusEnum.WRONG_ANSWER) →
      (test_solution language code cases).total_tests = cases.length) := by
  constructor
  · exact test_loop_passed_le language code cases.length cases 0 0 (by omega)
  · exact test_loop_total_fixed language code cases.length cases 0 0

/-- C2 witness: on a one-case accepted submission the amended theorem gives
`total_tests = 1`. -/
theorem c2_witness :
    (test_solution "python" "usercode"
        [(⟨"", "ok"⟩, .completed 0 "ok" "" 1)]).total_tests =
      [((⟨"", "ok"⟩ : TestCase), ProcOutcome.completed 0 "ok" "" 1)].length :=
  (c2_counts "python" "usercode"
    [(⟨"", "ok"⟩, .completed 0 "ok" "" 1)]).2 (Or.inl (by decide))

/-- C3: the per-case comparison declares a Match exactly when the two
strings are equal after stripping leading/trailing whitespace (internal
whitespace significant); in particular comparing " 5\n" with "5" is a Match
and "5 6" with "56" is a Mismatch, which the full `test_solution` pipeline
reproduces as verdicts `ACCEPTED` and `WRONG_ANSWER`. -/
theorem c3_trim_comparison :
    (∀ expected actual : String,
        compare_outputs expected actual = true ↔ strip expected = strip actual) ∧
    compare_outputs " 5\n" "5" = true ∧
    compare_outputs "5 6" "56" = false ∧
    (test_solution "python" "usercode"
        [(⟨"", " 5\n"⟩, .completed 0 "5" "" 1)]).status =
      SubmissionStatusEnum.ACCEPTED ∧
    (test_solution "python" "usercode"
        [(⟨"", "5 6"⟩, .completed 0 "56" "" 1)]).status =
      SubmissionStatusEnum.WRONG_ANSWER := by
  refine ⟨fun expected actual => ?_, by decide, by decide, by decide, by decide⟩
  simp [compare_outputs]

/-- C4 (counterexample): the claim fails as stated.  For the mocked `java`
language, a submission whose single case passes with an elapsed time of
7 ms yields verdict `ACCEPTED`, yet the reported runtime statistic is the
mocked constant 50 ms, not the arithmetic average (7 ms) of the per-case
elapsed times. -/
theorem c4_counterexample :
    (∀ p ∈ [((⟨"", "Java execution mocked"⟩ : TestCase),
        ProcOutcome.completed 0 "Java execution mocked" "" 7)],
        case_passes "java" "usercode" p = true) ∧
    (test_solution "java" "usercode"
        [(⟨"", "Java execution mocked"⟩,
          .completed 0 "Java execution mocked" "" 7)]).status =
      SubmissionStatusEnum.ACCEPTED ∧
    (test_solution "java" "usercode"
        [(⟨"", "Java execution mocked"⟩,
          .completed 0 "Java execution mocked" "" 7)]).runtime = some 50 ∧
    (([((⟨"", "Java execution mocked"⟩ : TestCase),
        ProcOutcome.completed 0 "Java execution mocked" "" 7)].map
          (fun p => elapsed_ms p.2)).sum) /
        (([((⟨"", "Java execution mocked"⟩ : TestCase),
          ProcOutcome.completed 0 "Java execution mocked" "" 7)].length : ℚ)) =
      7 ∧ (50 : ℚ) ≠ 7 := by
  have hpass : case_passes "java" "usercode"
      (⟨"", "Java execution mocked"⟩,
        ProcOutcome.completed 0 "Java execution mocked" "" 7) = true := by
    decide
  have hrun : test_solution "java" "usercode"
      [(⟨"", "Java execution mocked"⟩,
        .completed 0 "Java execution mocked" "" 7)] =
      test_loop "java" "usercode" 1 [] 1
        (0 + (execute_code "java" "usercode" ""
          (.completed 0 "Java execution mocked" "" 7)).runtime.getD 0) := by
    unfold test_solution
    exact test_loop_cons_pass "java" "usercode" 1 _ _ [] 0 0 hpass
  refine ⟨by decide, ?_, ?_, ?_, by norm_num⟩
  · rw [hrun, test_loop_nil]
  · rw [hrun, test_loop_nil]
    simp [execute_code, execute_java]
  · simp [elapsed_ms]

/-- C4 (amended): for every submission in one of the really-executed
languages (`python` or `javascript`) in which every test case passes,
`test_solution` returns verdict `ACCEPTED` with
`passed_tests = total_tests = ` the number of cases, and the runtime
statistic is the arithmetic average of the per-case elapsed times in
milliseconds across all cases (for the mocked `java` and `cpp` languages the
runtime statistic is instead built from the fixed mocked constants). -/
theorem c4_all_pass_average (language code : String)
    (hl : language = "python" ∨ language = "javascript")
    (cases : List (TestCase × ProcOutcome))
    (h : ∀ p ∈ cases, case_passes language code p = true) :
    (test_solution language code cases).status =
      SubmissionStatusEnum.ACCEPTED ∧
    (test_solution language code cases).passed_tests = cases.length ∧
    (test_solution language code cases).total_tests = cases.length ∧
    (test_solution language code cases).runtime =
      some (if 0 < cases.length then
        ((cases.map (fun p => elapsed_ms p.2)).sum) / (cases.length : ℚ)
      else 0) := by
  have hmap : cases.map
      (fun p => (execute_code language code p.1.input p.2).runtime.getD 0) =
      cases.map (fun p => elapsed_ms p.2) := by
    apply List.map_congr_left
    exact fun p hp => runtime_of_pass_real language code p hl (h p hp)
  have hpre := test_loop_passing_run language code cases.length cases [] h 0 0
  rw [List.append_nil] at hpre
  unfold test_solution
  rw [hpre, test_loop_nil, hmap]
  simp

/-- C4 witness: two passing Python cases with elapsed times 4 ms and 2 ms
give verdict `ACCEPTED`, 2/2 passed, and average runtime 3 ms. -/
theorem c4_witness :
    (test_solution "python" "usercode"
        [(⟨"", "ok"⟩, .completed 0 "ok" "" 4),
         (⟨"", "hi"⟩, .completed 0 "hi" "" 2)]).status =
      SubmissionStatusEnum.ACCEPTED ∧
    (test_solution "python" "usercode"
        [(⟨"", "ok"⟩, .completed 0 "ok" "" 4),
         (⟨"", "hi"⟩, .completed 0 "hi" "" 2)]).passed_tests = 2 ∧
    (test_solution "python" "usercode"
        [(⟨"", "ok"⟩, .completed 0 "ok" "" 4),
         (⟨"", "hi"⟩, .completed 0 "hi" "" 2)]).total_tests = 2 ∧
    (test_solution "python" "usercode"
        [(⟨"", "ok"⟩, .completed 0 "ok" "" 4),
         (⟨"", "hi"⟩, .completed 0 "hi" "" 2)]).runtime = some 3 := by
  have h := c4_all_pass_average "python" "usercode" (Or.inl rfl)
    [(⟨"", "ok"⟩, .completed 0 "ok" "" 4),
     (⟨"", "hi"⟩, .completed 0 "hi" "" 2)] (by decide)
  refine ⟨h.1, h.2.1, h.2.2.1, ?_⟩
  rw [h.2.2.2]
  norm_num [elapsed_ms]

/-- C5 (counterexample): the claim fails as stated.  An unsupported language
identifier is not rejected with a distinct `UnsupportedLanguage`
classification: the returned status is `RUNTIME_ERROR`, the same status a
user-code runtime error receives, so the two are conflated. -/
theorem c5_counterexample :
    (execute_code "ruby" "usercode" "" (.completed 0 "" "" 1)).status =
      (execute_code "python" "usercode" "" (.completed 1 "" "boom" 1)).status ∧
    (execute_code "ruby" "usercode" "" (.completed 0 "" "" 1)).status =
      SubmissionStatusEnum.RUNTIME_ERROR := by
  constructor <;> decide

/-- C5 (amended): for every language identifier outside
`{python, javascript, java, cpp}`, `execute_code` returns — without
consulting the subprocess layer at all (the result is independent of the
outcome oracle) — a result with status `RUNTIME_ERROR`, output
"Unsupported language" and error message "Language not supported"; the
rejection is distinguished only by its message text, not by a distinct
status. -/
theorem c5_unsupported_language (language code test_input : String)
    (o : ProcOutcome)
    (h1 : language ≠ "python") (h2 : language ≠ "javascript")
    (h3 : language ≠ "java") (h4 : language ≠ "cpp") :
    execute_code language code test_input o =
      { status := SubmissionStatusEnum.RUNTIME_ERROR,
        output := "Unsupported language",
        error_message := some "Language not supported" } := by
  simp [execute_code, h1, h2, h3, h4]

/-- C5 witness: the identifier "ruby" is outside the supported set and gets
the fixed unsupported-language result. -/
theorem c5_witness :
    execute_code "ruby" "usercode" "" ProcOutcome.timedOut =
      { status := SubmissionStatusEnum.RUNTIME_ERROR,
        output := "Unsupported language",
        error_message := some "Language not supported" } :=
  c5_unsupported_language "ruby" "usercode" "" ProcOutcome.timedOut
    (by decide) (by decide) (by decide) (by decide)

/-- C6: a Python or JavaScript run whose child exits non-zero yields status
`RUNTIME_ERROR` carrying the captured (stripped) stderr text as the
diagnostic message, and when it occurs during `test_solution` — after any
prefix of passing cases — the submission stops there: the returned result is
that case's raw result, the remaining cases unexamined. -/
theorem c6_nonzero_exit (code inp expect out err : String) (rc : Int)
    (rt : ℚ) (pre rest : List (TestCase × ProcOutcome))
    (hpre : ∀ p ∈ pre, case_passes "python" code p = true)
    (hrc : rc ≠ 0) :
    (execute_code "python" code inp (.completed rc out err rt)).status =
      SubmissionStatusEnum.RUNTIME_ERROR ∧
    (execute_code "python" code inp (.completed rc out err rt)).error_message =
      some (strip err) ∧
    (execute_code "javascript" code inp (.completed rc out err rt)).status =
      SubmissionStatusEnum.RUNTIME_ERROR ∧
    (execute_code "javascript" code inp (.completed rc out err rt)).error_message =
      some (strip err) ∧
    test_solution "python" code
        (pre ++ (⟨inp, expect⟩, ProcOutcome.completed rc out err rt) :: rest) =
      execute_code "python" code inp (.completed rc out err rt) := by
  have hstat : (execute_code "python" code inp
      (.completed rc out err rt)).status = SubmissionStatusEnum.RUNTIME_ERROR := by
    simp [execute_code, execute_python, hrc]
  refine ⟨hstat, ?_, ?_, ?_, ?_⟩
  · simp [execute_code, execute_python, hrc]
  · simp [execute_code, execute_javascript, hrc]
  · simp [execute_code, execute_javascript, hrc]
  · unfold test_solution
    rw [test_loop_passing_run "python" code _ pre _ hpre 0 0,
      test_loop_cons_raw]
    simp [hstat]

/-- C6 witness: after one passing case, a case exiting with status 1 and
"ZeroDivisionError: division by zero" on stderr stops the submission with a
`RUNTIME_ERROR` result carrying that message. -/
theorem c6_witness :
    (test_solution "python" "usercode"
        [(⟨"", "ok"⟩, .completed 0 "ok" "" 1),
         (⟨"", "5"⟩, .completed 1 ""
            "ZeroDivisionError: division by zero\n" 1)]).status =
      SubmissionStatusEnum.RUNTIME_ERROR ∧
    (test_solution "python" "usercode"
        [(⟨"", "ok"⟩, .completed 0 "ok" "" 1),
         (⟨"", "5"⟩, .completed 1 ""
            "ZeroDivisionError: division by zero\n" 1)]).error_message =
      some "ZeroDivisionError: division by zero" := by
  have h := c6_nonzero_exit "usercode" "" "5" ""
    "ZeroDivisionError: division by zero\n" 1 1
    [(⟨"", "ok"⟩, .completed 0 "ok" "" 1)] [] (by decide) (by decide)
  have heq := h.2.2.2.2
  simp only [List.cons_append, List.nil_append] at heq
  rw [heq]
  exact ⟨h.1, h.2.1.trans (by decide)⟩

/-- C7: an execution whose run exceeds the wall-clock limit is classified
`TIME_LIMIT_EXCEEDED` (not any other error kind) for both Python and
JavaScript, and the configured default limit is 5 seconds. -/
theorem c7_timeout_classified (code test_input : String) :
    (execute_code "python" code test_input .timedOut).status =
      SubmissionStatusEnum.TIME_LIMIT_EXCEEDED ∧
    (execute_code "python" code test_input .timedOut).error_message =
      some "Time limit exceeded" ∧
    (execute_code "javascript" code test_input .timedOut).status =
      SubmissionStatusEnum.TIME_LIMIT_EXCEEDED ∧
    code_executor.timeout = 5 := by
  refine ⟨?_, ?_, ?_, rfl⟩ <;>
    simp [execute_code, execute_python, execute_javascript]

/-- C8 (counterexample): the claim fails as stated.  An internal setup
failure (e.g. a filesystem error while spawning) is caught, but it is
surfaced with status `RUNTIME_ERROR` — the same status a user-code runtime
error receives — not with a distinct `InternalExecutionFailure`
classification. -/
theorem c8_counterexample :
    (execute_code "python" "usercode" ""
        (.setupError "No such file or directory")).status =
      (execute_code "python" "usercode" ""
        (.completed 1 "" "ZeroDivisionError" 1)).status ∧
    (execute_code "python" "usercode" ""
        (.setupError "No such file or directory")).status =
      SubmissionStatusEnum.RUNTIME_ERROR := by
  constructor <;> decide

/-- C8 (amended): an internal execution failure raised during setup is
caught at the `execute_code` boundary — it never propagates to the caller,
who always receives a structured result — but it is surfaced as status
`RUNTIME_ERROR` with the exception text as the error message, conflated with
the user-code runtime-error kind. -/
theorem c8_internal_caught (language code test_input msg : String)
    (h : language = "python" ∨ language = "javascript") :
    execute_code language code test_input (.setupError msg) =
      { status := SubmissionStatusEnum.RUNTIME_ERROR, output := "",
        error_message := some msg } := by
  rcases h with h | h <;> subst h <;>
    simp [execute_code, execute_python, execute_javascript]

/-- C8 witness: a Python setup failure "boom" is returned as a structured
`RUNTIME_ERROR` result. -/
theorem c8_witness :
    execute_code "python" "usercode" "" (.setupError "boom") =
      { status := SubmissionStatusEnum.RUNTIME_ERROR, output := "",
        error_message := some "boom" } :=
  c8_internal_caught "python" "usercode" "" "boom" (Or.inl rfl)

/-- C9: Java and C++ execution is mocked: for every submitted code and every
behaviour of the environment, the result is a fixed `ACCEPTED` record with a
fixed output string and fixed runtime/memory figures, independent of the
code's content. -/
theorem c9_mocked_languages (code test_input : String) (o : ProcOutcome) :
    execute_code "java" code test_input o =
      { status := SubmissionStatusEnum.ACCEPTED,
        output := "Java execution mocked",
        runtime := some 50, memory := some 25 } ∧
    execute_code "cpp" code test_input o =
      { status := SubmissionStatusEnum.ACCEPTED,
        output := "C++ execution mocked",
        runtime := some 30, memory := some 20 } := by
  constructor <;> simp [execute_code, execute_java, execute_cpp]

/-- C10: on the empty list of test cases `test_solution` returns verdict
`ACCEPTED` with `passed_tests = total_tests = 0`, runtime 0 and no error:
the average-runtime division is guarded by the `0 < total_tests` check. -/
theorem c10_empty_cases (language code : String) :
    (test_solution language code []).status = SubmissionStatusEnum.ACCEPTED ∧
    (test_solution language code []).passed_tests = 0 ∧
    (test_solution language code []).total_tests = 0 ∧
    (test_solution language code []).runtime = some 0 ∧
    (test_solution language code []).error_message = none := by
  unfold test_solution
  rw [test_loop_nil]
  simp

end CodeForge
